import Mathlib

/-!
Verification development for the DFCRM fraud-risk engine
(fingerprint construction, behavioral drift measurement, contamination
scoring, zone classification, recovery decay, temporal simulation, and
the transaction API entry point).

The Python engine computes with IEEE floats; this development embeds the
arithmetic over the exact rationals, with decimal rounding (the Python
builtin `round(x, n)` on the exact decimal value) modelled by `round4` /
`round2` below.  Graph-store queries (Neo4j) are modelled as explicit
oracle arguments, and the library square root used by the fingerprint
builder is an explicit function parameter.
-/

namespace DFCRM

/-- Python builtin round(x, 4), over exact rationals: round to the nearest
multiple of 1/10000. -/
def round4 (x : ℚ) : ℚ := (round (x * 10000) : ℤ) / 10000

/-- Python builtin round(x, 2), over exact rationals. -/
def round2 (x : ℚ) : ℚ := (round (x * 100) : ℤ) / 100

/-! ### contamination.py : configuration constants -/

/-- Weight for structural contamination (hop distance); `ALPHA = 0.6`. -/
def ALPHA : ℚ := 3/5

/-- Weight for behavioral drift; `BETA = 0.4`. -/
def BETA : ℚ := 2/5

/-- The risk zones.  The Python code uses the string labels
"Critical", "Exposed", "Clean"; the three constructors stand for those
three string constants. -/
inductive Zone
  | Clean
  | Exposed
  | Critical
  deriving DecidableEq, Repr

/-- The `HOP_SCORES` dictionary lookup `HOP_SCORES.get(h, 0.05)`:
`{1: 1.0, 2: 0.6, 3: 0.3, 4: 0.1}` with default `0.05`. -/
def hopScore (h : ℤ) : ℚ :=
  if h = 1 then 1
  else if h = 2 then 3/5
  else if h = 3 then 3/10
  else if h = 4 then 1/10
  else 1/20

/-- Function compute_contamination_score(hop_distance, drift_score) from
contamination.py: structural score 0.0 when the hop distance is `None`,
otherwise the `HOP_SCORES` table with default 0.05; risk is
`ALPHA * structural + BETA * drift`, capped at 1.0 and rounded to 4
decimals. -/
def compute_contamination_score (hop_distance : Option ℤ) (drift_score : ℚ) : ℚ :=
  let structural_score : ℚ :=
    match hop_distance with
    | none => 0
    | some h => hopScore h
  round4 (min (ALPHA * structural_score + BETA * drift_score) 1)

/-- Function classify_zone(risk_score) from contamination.py, using the
`ZONE_THRESHOLDS` table `{Critical: 0.75, Exposed: 0.45, Clean: 0.0}`. -/
def classify_zone (risk_score : ℚ) : Zone :=
  if 3/4 ≤ risk_score then Zone.Critical
  else if 9/20 ≤ risk_score then Zone.Exposed
  else Zone.Clean

/-! ### Spec-side formulations (written from the specification text, to be
compared with the source-side definitions) -/

/-- Structural score exactly as the specification words it:
`{1:1.0, 2:0.6, 3:0.3, 4:0.1}.get(hop, 0.05 if hop is not None else 0.0)`. -/
def structural_spec (hop : Option ℤ) : ℚ :=
  match hop with
  | none => 0
  | some h =>
    if h = 1 then 1
    else if h = 2 then 3/5
    else if h = 3 then 3/10
    else if h = 4 then 1/10
    else 1/20

/-- Contamination formula exactly as the specification words it:
`risk = min(0.6 * structural + 0.4 * drift, 1.0)` rounded to 4 decimals. -/
def contamination_spec (hop : Option ℤ) (drift : ℚ) : ℚ :=
  round4 (min (3/5 * structural_spec hop + 2/5 * drift) 1)

/-! ### Basic facts about decimal rounding -/

theorem round4_abs_sub_le (x : ℚ) : |round4 x - x| ≤ 1/20000 := by
  have h := abs_sub_round (x * 10000)
  rw [abs_sub_comm] at h
  have e : round4 x - x = (((round (x * 10000) : ℤ) : ℚ) - x * 10000) / 10000 := by
    rw [round4]; ring
  rw [e, abs_div]
  have e2 : |(10000:ℚ)| = 10000 := by norm_num
  rw [e2]
  linarith [h]

theorem round4_idem (x : ℚ) : round4 (round4 x) = round4 x := by
  unfold round4
  have h : ((round (x * 10000) : ℤ) : ℚ) / 10000 * 10000 = ((round (x * 10000) : ℤ) : ℚ) := by
    field_simp
  rw [h, round_intCast]

theorem round_mono' {x y : ℚ} (h : x ≤ y) : round x ≤ round y := by
  rw [round_eq, round_eq]
  exact Int.floor_le_floor (by linarith)

theorem round4_nonneg {x : ℚ} (h : 0 ≤ x) : 0 ≤ round4 x := by
  unfold round4
  have h1 : (0:ℤ) ≤ round (x * 10000) := by
    have h2 := round_mono' (by nlinarith : (0:ℚ) ≤ x * 10000)
    simpa using h2
  positivity

theorem round4_le_one {x : ℚ} (h : x ≤ 1) : round4 x ≤ 1 := by
  unfold round4
  have h1 : round (x * 10000) ≤ round (10000 : ℚ) := round_mono' (by nlinarith)
  have h2 : round (10000 : ℚ) = 10000 := by
    exact_mod_cast round_natCast (α := ℚ) 10000
  rw [h2] at h1
  rw [div_le_one (by norm_num : (0:ℚ) < 10000)]
  exact_mod_cast h1

/-! ### drift.py : behavioral drift engine -/

/-- The stored behavioral fingerprint of an account, as loaded by
`get_fingerprint` in drift.py (account id and update timestamp are
metadata not read by the scoring math). -/
structure Fingerprint where
  hour_vector : List ℚ
  amount_mean : ℚ
  amount_std : ℚ
  daily_velocity : ℚ
  counterparty_weekly : ℚ
  device_count : ℕ
  deriving DecidableEq, Repr

/-- The `new_transaction` event dictionary consumed by
`compute_drift_score`: amount, hour (Python int, nominally 0-23), and
the count of recent transactions. -/
structure DriftEvent where
  amount : ℚ
  hour : ℤ
  recent_count : ℤ
  deriving DecidableEq, Repr

/-- Python list subscription `l[i]`: nonnegative indices below the
length index directly, negative indices at least `-len` wrap around,
anything else raises `IndexError` (modelled as `none`). -/
def pyIndex (l : List ℚ) (i : ℤ) : Option ℚ :=
  if 0 ≤ i ∧ i < l.length then l.get? i.toNat
  else if -(l.length : ℤ) ≤ i ∧ i < 0 then l.get? (l.length + i).toNat
  else none

/-- Function compute_time_drift(fingerprint, new_transaction_hour) from drift.py:
neutral 0.5 when the stored hour vector is empty or not of length 24,
otherwise `round(1.0 - hour_vector[hour], 4)`; `none` models the
`IndexError` a Python out-of-range subscript raises. -/
def compute_time_drift (fingerprint : Fingerprint) (new_transaction_hour : ℤ) :
    Option ℚ :=
  if fingerprint.hour_vector.length ≠ 24 then some (1/2)
  else (pyIndex fingerprint.hour_vector new_transaction_hour).map
    (fun prob => round4 (1 - prob))

/-- Function compute_amount_drift(fingerprint, new_amount) from drift.py:
z-score against the stored mean with the standard deviation floored to
1.0, normalized by 5 and capped at 1.0, rounded to 4 decimals. -/
def compute_amount_drift (fingerprint : Fingerprint) (new_amount : ℚ) : ℚ :=
  let std : ℚ := if fingerprint.amount_std < 1 then 1 else fingerprint.amount_std
  let z_score : ℚ := |new_amount - fingerprint.amount_mean| / std
  round4 (min (z_score / 5) 1)

/-- Function compute_velocity_drift(fingerprint, recent_transaction_count) from
drift.py: for a baseline below 0.5 transactions/day, 0.0 up to 2 recent
transactions and `min((count - 2)/8, 1.0)` beyond; otherwise
`(count/baseline - 1)/4` clamped into [0,1]; rounded to 4 decimals. -/
def compute_velocity_drift (fingerprint : Fingerprint)
    (recent_transaction_count : ℤ) : ℚ :=
  if fingerprint.daily_velocity < 1/2 then
    if recent_transaction_count ≤ 2 then 0
    else round4 (min (((recent_transaction_count : ℚ) - 2) / 8) 1)
  else
    round4 (max (min (((recent_transaction_count : ℚ) / fingerprint.daily_velocity - 1) / 4) 1) 0)

/-- Function compute_drift_score(account_id, new_transaction) from drift.py,
with the stored fingerprint (the result of `get_fingerprint`) passed
explicitly: neutral 0.5 when no fingerprint exists, otherwise the
weighted combination `0.3 * time + 0.4 * amount + 0.3 * velocity`
rounded to 4 decimals.  `none` models an escaping `IndexError`. -/
def compute_drift_score (fingerprint : Option Fingerprint) (new_transaction : DriftEvent) :
    Option ℚ :=
  match fingerprint with
  | none => some (1/2)
  | some fp =>
    (compute_time_drift fp new_transaction.hour).map fun time_drift =>
      let amount_drift := compute_amount_drift fp new_transaction.amount
      let velocity_drift := compute_velocity_drift fp new_transaction.recent_count
      round4 (3/10 * time_drift + 2/5 * amount_drift + 3/10 * velocity_drift)

/-- The drift formula exactly as claim C3 words it: combined score
`0.3 * time + 0.4 * amount + 0.3 * velocity` rounded to 4 decimal
places, where the three component drifts are the UNROUNDED expressions
`1 - hour_vector[hour]`, `min(|amount - mean| / max(std, 1) / 5, 1)`,
and the piecewise velocity rule. -/
def drift_score_claim (fp : Fingerprint) (ev : DriftEvent) : ℚ :=
  let time_drift : ℚ := 1 - fp.hour_vector.getD ev.hour.toNat 0
  let amount_drift : ℚ := min (|ev.amount - fp.amount_mean| / max fp.amount_std 1 / 5) 1
  let velocity_drift : ℚ :=
    if fp.daily_velocity < 1/2 then
      if ev.recent_count ≤ 2 then 0
      else min (((ev.recent_count : ℚ) - 2) / 8) 1
    else max (min (((ev.recent_count : ℚ) / fp.daily_velocity - 1) / 4) 1) 0
  round4 (3/10 * time_drift + 2/5 * amount_drift + 3/10 * velocity_drift)

/-! ### fingerprint.py : fingerprint builder -/

/-- One sent transaction as consumed by `compute_fingerprint`: its
amount and its local hour of day (`datetime.fromisoformat(ts).hour`,
with the noon fallback on a parse failure — either way a value in
0..23). -/
structure Txn where
  amount : ℚ
  hour : Fin 24
  deriving DecidableEq, Repr

/-- The 24-bucket hour histogram of `compute_fingerprint`: bucket `h`
holds `round(count_of_hour_h / total, 4)`. -/
def hour_vector_of (transactions : List Txn) : List ℚ :=
  (List.range 24).map fun h =>
    round4 ((transactions.countP (fun t => t.hour.val = h) : ℚ) / transactions.length)

/-- Function compute_fingerprint(account_id) from fingerprint.py, with the
graph-store queries passed explicitly: `transactions` is the result of
`get_account_transactions` (the lookback window), `counterparty_weekly`
and `device_count` the results of `get_counterparty_count` and
`get_device_count`, and `sqrtQ` the library square root used by
`np.std` (population standard deviation = sqrtQ of the population
variance).  Returns `none` (InsufficientHistory) on fewer than 3
transactions. -/
def compute_fingerprint (sqrtQ : ℚ → ℚ) (transactions : List Txn)
    (counterparty_weekly : ℚ) (device_count : ℕ) : Option Fingerprint :=
  if transactions.length < 3 then none
  else
    let n : ℚ := transactions.length
    let amounts := transactions.map (·.amount)
    let mean : ℚ := amounts.sum / n
    let variance : ℚ := (amounts.map (fun a => (a - mean) ^ 2)).sum / n
    some
      { hour_vector := hour_vector_of transactions
        amount_mean := round2 mean
        amount_std := round2 (sqrtQ variance + 1/100)
        daily_velocity := round4 (n / 90)
        counterparty_weekly := counterparty_weekly
        device_count := device_count }

/-- One iteration of the `run_all_accounts` loop in fingerprint.py over
a fingerprint store: `save_fingerprint` is invoked only when
`compute_fingerprint` produced a fingerprint; otherwise the account is
skipped and the store is left as it was. -/
def fingerprint_pass (sqrtQ : ℚ → ℚ) (store : String → Option Fingerprint)
    (account_id : String) (transactions : List Txn)
    (counterparty_weekly : ℚ) (device_count : ℕ) : String → Option Fingerprint :=
  match compute_fingerprint sqrtQ transactions counterparty_weekly device_count with
  | some fp => fun x => if x = account_id then some fp else store x
  | none => store

/-! ### contamination.py : trust recovery (real-valued, for the
exponential decay) -/

/-- Python builtin round(x, 4) over the reals, for the recovery decay branch. -/
noncomputable def round4R (x : ℝ) : ℝ := (round (x * 10000) : ℤ) / 10000

/-- Function apply_recovery(current_contamination, drift_score, days_clean)
from contamination.py: when drift exceeds 0.2 the contamination is held
at `max(current * 0.95, 0.3)`; otherwise it decays exponentially with
`RECOVERY_LAMBDA = 0.1`, floored at 0 and rounded to 4 decimals. -/
noncomputable def apply_recovery (current_contamination drift_score days_clean : ℝ) : ℝ :=
  if drift_score > 1/5 then
    max (current_contamination * (19/20)) (3/10)
  else
    round4R (max (current_contamination * Real.exp (-(1/10) * days_clean)) 0)

/-! ### contamination.py : temporal risk simulation -/

/-- An element of the explicitly supplied `accounts` argument of
`simulate_temporal_risk`: the Python dict keys the code reads via
`.get`, each possibly absent. -/
structure SimAccount where
  account_id : String
  hop_distance : Option ℤ
  base_drift : Option ℚ
  drift_score : Option ℚ
  risk0 : Option ℚ
  deriving DecidableEq, Repr

/-- An enriched account as built by the explicit-accounts branch of
`simulate_temporal_risk` (lines 220-235). -/
structure EnrichedAccount where
  account_id : String
  hop_distance : Option ℤ
  base_drift : ℚ
  risk0 : ℚ
  deriving DecidableEq, Repr

/-- The parameters of `simulate_temporal_risk`. -/
structure SimParams where
  steps : ℕ
  decay_rate : ℚ
  signal_probability : ℚ
  drift_threshold : ℚ
  deriving DecidableEq, Repr

/-- One row of the result of `simulate_temporal_risk`. -/
structure StepRecord where
  account_id : String
  step : ℕ
  risk_score : ℚ
  zone : Zone
  drift_score : ℚ
  signal : Bool
  deriving DecidableEq, Repr

/-- Enrichment of one explicitly supplied account:
`hop = acc.get("hop_distance")`, falling back to the graph-store query
(`storeHop`) when absent or `None`;
`base_drift = acc.get("base_drift", acc.get("drift_score", 0.0))`;
`risk0 = acc.get("risk0")`, computed from hop and drift when absent. -/
def enrich_account (storeHop : String → Option ℤ) (acc : SimAccount) :
    EnrichedAccount :=
  let hop : Option ℤ :=
    match acc.hop_distance with
    | some h => some h
    | none => storeHop acc.account_id
  let base_drift : ℚ := acc.base_drift.getD (acc.drift_score.getD 0)
  { account_id := acc.account_id
    hop_distance := hop
    base_drift := base_drift
    risk0 := acc.risk0.getD (compute_contamination_score hop base_drift) }

/-- One simulated step `t >= 1` for one account (lines 247-253).  The
pseudo-random source is the stream `u` of successive `random.random()`
draws, consumed at counter position `k`; `random.uniform(0.2, 0.6)` is
`0.2 + 0.4 * random.random()`.  The boolean signal test short-circuits:
when the baseline drift already reaches the threshold no draw is
consumed by the test.  Returns (raw risk, signal flag, new counter). -/
def sim_step (u : ℕ → ℚ) (p : SimParams) (acc : EnrichedAccount)
    (prev_risk : ℚ) (k : ℕ) : ℚ × Bool × ℕ :=
  if p.drift_threshold ≤ acc.base_drift then
    let drift_t := max acc.base_drift (min 1 (acc.base_drift + (1/5 + 2/5 * u k)))
    (compute_contamination_score acc.hop_distance drift_t, true, k + 1)
  else if u k < p.signal_probability then
    let drift_t := max acc.base_drift (min 1 (acc.base_drift + (1/5 + 2/5 * u (k + 1))))
    (compute_contamination_score acc.hop_distance drift_t, true, k + 2)
  else
    (prev_risk * (1 - p.decay_rate), false, k + 1)

/-- The inner loop of `simulate_temporal_risk` over the remaining
steps: each step rounds its risk to 4 decimals, records it with its
zone, and carries the rounded risk forward. -/
def sim_steps (u : ℕ → ℚ) (p : SimParams) (acc : EnrichedAccount) :
    ℕ → ℕ → ℚ → ℕ → List StepRecord × ℕ
  | 0, _, _, k => ([], k)
  | n + 1, t, prev_risk, k =>
    let s := sim_step u p acc prev_risk k
    let risk_t := round4 s.1
    let rest := sim_steps u p acc n (t + 1) risk_t s.2.2
    ({ account_id := acc.account_id
       step := t
       risk_score := risk_t
       zone := classify_zone risk_t
       drift_score := acc.base_drift
       signal := s.2.1 } :: rest.1, rest.2)

/-- The outer loop of `simulate_temporal_risk` over the enriched
accounts: step 0 records `round(risk0, 4)` with signal `True` (and the
zone of the unrounded risk0), then the per-step loop runs with the
unrounded risk0 as the previous risk. -/
def sim_accounts (u : ℕ → ℚ) (p : SimParams) :
    List EnrichedAccount → ℕ → List StepRecord
  | [], _ => []
  | acc :: rest, k =>
    let head : StepRecord :=
      { account_id := acc.account_id
        step := 0
        risk_score := round4 acc.risk0
        zone := classify_zone acc.risk0
        drift_score := acc.base_drift
        signal := true }
    let body := sim_steps u p acc p.steps 1 acc.risk0 k
    (head :: body.1) ++ sim_accounts u p rest body.2

/-- Function simulate_temporal_risk from contamination.py restricted to an
explicitly supplied account list (the branch that does not pull
accounts from the graph store), with `plot=False`.  `u` is the stream
of `random.random()` draws of the module RNG after `random.seed(seed)`:
a fixed seed fixes `u`. -/
def simulate_temporal_risk (u : ℕ → ℚ) (p : SimParams)
    (storeHop : String → Option ℤ) (accounts : List SimAccount) :
    List StepRecord :=
  sim_accounts u p (accounts.map (enrich_account storeHop)) 0

/-! ### api/main.py : the real-time transaction endpoint -/

/-- The persisted per-account risk state written by
`update_account_risk`. -/
structure RiskState where
  contamination_score : ℚ
  zone : Zone
  hop_distance : Option ℤ
  deriving DecidableEq, Repr

/-- The durable graph-store state visible to the transaction endpoint:
the set of existing accounts, and the per-account stored fingerprints,
drift scores, risk states, midnight-to-now transaction counts, and the
shortest-fraud-path answer of `get_hop_distance`. -/
structure GraphState where
  accounts : List String
  fingerprints : String → Option Fingerprint
  drift_scores : String → Option ℚ
  risk_states : String → Option RiskState
  recent_counts : String → ℕ
  hops : String → Option ℤ

/-- Request model TransactionEvent from api/main.py. -/
structure TransactionEvent where
  sender_id : String
  receiver_id : String
  amount : ℚ
  hour : ℤ
  deriving DecidableEq, Repr

/-- The error outcomes of the endpoint: the 404 raised for an unknown
sender, and an escaping exception from the scoring math (a 500). -/
inductive ApiError
  | accountNotFound
  | internalError
  deriving DecidableEq, Repr

/-- The response body of a successful `/transaction` call (timestamps
omitted). -/
structure TxnResponse where
  sender_id : String
  receiver_id : String
  amount : ℚ
  drift_score : ℚ
  risk_score : ℚ
  zone : Zone
  hop_distance : Option ℤ
  deriving DecidableEq, Repr

/-- Function save_drift_score(account_id, drift_score) from drift.py, as a
store update. -/
def save_drift_score (st : GraphState) (account_id : String) (drift_score : ℚ) :
    GraphState :=
  { st with drift_scores := fun x => if x = account_id then some drift_score else st.drift_scores x }

/-- Function update_account_risk(account_id, drift_score) from
contamination.py: fetch the hop distance, compute the contamination
score and zone, persist them as one write, and return the resulting
risk state. -/
def update_account_risk (st : GraphState) (account_id : String) (drift_score : ℚ) :
    GraphState × RiskState :=
  let hop_distance := st.hops account_id
  let risk_score := compute_contamination_score hop_distance drift_score
  let rs : RiskState := ⟨risk_score, classify_zone risk_score, hop_distance⟩
  ({ st with risk_states := fun x => if x = account_id then some rs else st.risk_states x }, rs)

/-- Function process_transaction(event) from api/main.py: reject the event
with a 404 when the sender does not exist — before anything is written;
otherwise compute the sender drift from its stored fingerprint and the
event, persist the drift, recompute and persist the risk state, and
answer with the new scores.  The state component of the result is the
graph store after the call. -/
def process_transaction (st : GraphState) (event : TransactionEvent) :
    GraphState × Except ApiError TxnResponse :=
  if event.sender_id ∈ st.accounts then
    let recent_count : ℤ := (st.recent_counts event.sender_id : ℤ) + 1
    match compute_drift_score (st.fingerprints event.sender_id)
        ⟨event.amount, event.hour, recent_count⟩ with
    | none => (st, Except.error ApiError.internalError)
    | some drift_score =>
      let st1 := save_drift_score st event.sender_id drift_score
      let res := update_account_risk st1 event.sender_id drift_score
      (res.1, Except.ok
        ⟨event.sender_id, event.receiver_id, event.amount, drift_score,
         res.2.contamination_score, res.2.zone, res.2.hop_distance⟩)
  else (st, Except.error ApiError.accountNotFound)

/-! ### Claims -/

/-- C1: for every hop value and every drift value,
`compute_contamination_score(hop, drift)` equals
`round(min(0.6 * structural + 0.4 * drift, 1.0), 4)` with structural
1.0 / 0.6 / 0.3 / 0.1 for hops 1-4, 0.0 for `None`, 0.05 for any other
non-`None` hop; in particular contamination(1, 0.8) = 0.92,
contamination(4, 0.0) = 0.06, and contamination(None, 0.5) = 0.2. -/
theorem claim_C1_contamination_formula :
    (∀ (hop : Option ℤ) (drift : ℚ),
        compute_contamination_score hop drift = contamination_spec hop drift) ∧
    compute_contamination_score (some 1) (4/5) = 23/25 ∧
    compute_contamination_score (some 4) 0 = 3/50 ∧
    compute_contamination_score none (1/2) = 1/5 := by
  refine ⟨fun hop drift => ?_,
    by norm_num [compute_contamination_score, round4, ALPHA, BETA, hopScore, round_eq],
    by norm_num [compute_contamination_score, round4, ALPHA, BETA, hopScore, round_eq],
    by norm_num [compute_contamination_score, round4, ALPHA, BETA, round_eq]⟩
  cases hop <;> rfl

/-- C2: `classify_zone` is total and deterministic and partitions [0,1]
exactly into Clean = [0, 0.45), Exposed = [0.45, 0.75),
Critical = [0.75, 1], inclusive on the lower edge of each tier, with no
gaps or overlaps: on [0,1] the zone is Critical iff risk ≥ 0.75,
Exposed iff 0.45 ≤ risk < 0.75, Clean iff risk < 0.45. -/
theorem claim_C2_zone_partition (risk : ℚ) (h0 : 0 ≤ risk) (h1 : risk ≤ 1) :
    (classify_zone risk = Zone.Critical ↔ 3/4 ≤ risk ∧ risk ≤ 1) ∧
    (classify_zone risk = Zone.Exposed ↔ 9/20 ≤ risk ∧ risk < 3/4) ∧
    (classify_zone risk = Zone.Clean ↔ 0 ≤ risk ∧ risk < 9/20) := by
  unfold classify_zone
  split_ifs with hc he
  · refine ⟨⟨fun _ => ⟨hc, h1⟩, fun _ => rfl⟩, ⟨?_, ?_⟩, ⟨?_, ?_⟩⟩
    · intro h; cases h
    · intro h; exact absurd hc (not_le.mpr h.2)
    · intro h; cases h
    · intro h; exact absurd hc (not_le.mpr (by linarith [h.2]))
  · refine ⟨⟨?_, ?_⟩, ⟨fun _ => ⟨he, lt_of_not_le hc⟩, fun _ => rfl⟩, ⟨?_, ?_⟩⟩
    · intro h; cases h
    · intro h; exact absurd h.1 hc
    · intro h; cases h
    · intro h; exact absurd he (not_le.mpr h.2)
  · refine ⟨⟨?_, ?_⟩, ⟨?_, ?_⟩, ⟨fun _ => ⟨h0, lt_of_not_le he⟩, fun _ => rfl⟩⟩
    · intro h; cases h
    · intro h; exact absurd h.1 hc
    · intro h; cases h
    · intro h; exact absurd h.1 he

/-- Witness for C2 at concrete points of each tier. -/
theorem claim_C2_zone_partition_witness :
    ((0:ℚ) ≤ 4/5 ∧ (4/5:ℚ) ≤ 1 ∧ classify_zone (4/5) = Zone.Critical) ∧
    ((0:ℚ) ≤ 1/2 ∧ (1/2:ℚ) ≤ 1 ∧ classify_zone (1/2) = Zone.Exposed) ∧
    ((0:ℚ) ≤ 1/10 ∧ (1/10:ℚ) ≤ 1 ∧ classify_zone (1/10) = Zone.Clean) := by
  refine ⟨⟨by norm_num, by norm_num, ?_⟩, ⟨by norm_num, by norm_num, ?_⟩,
    ⟨by norm_num, by norm_num, ?_⟩⟩
  · exact (claim_C2_zone_partition (4/5) (by norm_num) (by norm_num)).1.mpr
      ⟨by norm_num, by norm_num⟩
  · exact (claim_C2_zone_partition (1/2) (by norm_num) (by norm_num)).2.1.mpr
      ⟨by norm_num, by norm_num⟩
  · exact (claim_C2_zone_partition (1/10) (by norm_num) (by norm_num)).2.2.mpr
      ⟨by norm_num, by norm_num⟩

/-- C5: for every currentScore, drift and daysClean, when drift > 0.2
`apply_recovery` returns `max(currentScore * 0.95, 0.3)` (contamination
held with a light decay floor); otherwise it returns
`currentScore * exp(-0.1 * daysClean)` (lambda default 0.1/day),
floored at 0 and rounded to 4 decimals. -/
theorem claim_C5_apply_recovery (currentScore drift daysClean : ℝ) :
    (1/5 < drift → apply_recovery currentScore drift daysClean =
      max (currentScore * (19/20)) (3/10)) ∧
    (drift ≤ 1/5 → apply_recovery currentScore drift daysClean =
      round4R (max (currentScore * Real.exp (-(1/10) * daysClean)) 0)) := by
  constructor
  · intro h
    rw [apply_recovery, if_pos h]
  · intro h
    rw [apply_recovery, if_neg (not_lt.mpr h)]

/-- Witness for C5: one concrete input in each branch. -/
theorem claim_C5_apply_recovery_witness :
    ((1:ℝ)/5 < 3/10 ∧ apply_recovery 1 (3/10) 5 = max ((1:ℝ) * (19/20)) (3/10)) ∧
    ((1:ℝ)/10 ≤ 1/5 ∧ apply_recovery 1 (1/10) 2 =
      round4R (max ((1:ℝ) * Real.exp (-(1/10) * 2)) 0)) := by
  refine ⟨⟨by norm_num, ?_⟩, ⟨by norm_num, ?_⟩⟩
  · exact (claim_C5_apply_recovery 1 (3/10) 5).1 (by norm_num)
  · exact (claim_C5_apply_recovery 1 (1/10) 2).2 (by norm_num)

/-- C10: whenever drift > 0.2 the hold branch of `apply_recovery`
returns at least 0.3 regardless of the current contamination score, and
for every currentScore < 0.3 it returns exactly 0.3 — strictly greater
than the input, so the hold/decay policy can increase a low
contamination score. -/
theorem claim_C10_recovery_floor (currentScore drift daysClean : ℝ)
    (h : 1/5 < drift) :
    3/10 ≤ apply_recovery currentScore drift daysClean ∧
    (currentScore < 3/10 →
      apply_recovery currentScore drift daysClean = 3/10 ∧
      currentScore < apply_recovery currentScore drift daysClean) := by
  have e : apply_recovery currentScore drift daysClean =
      max (currentScore * (19/20)) (3/10) := by
    rw [apply_recovery, if_pos h]
  rw [e]
  refine ⟨le_max_right _ _, fun hc => ?_⟩
  have hmax : max (currentScore * (19/20)) (3/10) = 3/10 :=
    max_eq_right (by nlinarith)
  exact ⟨hmax, by rw [hmax]; linarith⟩

/-- Witness for C10: currentScore 0, drift 1. -/
theorem claim_C10_recovery_floor_witness :
    (1:ℝ)/5 < 1 ∧ (0:ℝ) < 3/10 ∧ apply_recovery 0 1 0 = 3/10 ∧
      (0:ℝ) < apply_recovery 0 1 0 := by
  have h := claim_C10_recovery_floor 0 1 0 (by norm_num)
  have h2 := h.2 (by norm_num)
  exact ⟨by norm_num, by norm_num, h2.1, h2.2⟩

/-- C9: a transaction event whose sender account does not exist fails
with AccountNotFound and mutates no state: the graph store is returned
unchanged and no drift score or risk state is written. -/
theorem claim_C9_unknown_sender (st : GraphState) (event : TransactionEvent)
    (h : event.sender_id ∉ st.accounts) :
    process_transaction st event = (st, Except.error ApiError.accountNotFound) := by
  rw [process_transaction, if_neg h]

/-- A concrete empty graph store for the C9 witness. -/
def emptyGraphState : GraphState :=
  { accounts := []
    fingerprints := fun _ => none
    drift_scores := fun _ => none
    risk_states := fun _ => none
    recent_counts := fun _ => 0
    hops := fun _ => none }

/-- A concrete transaction event for the C9 witness. -/
def c9Event : TransactionEvent :=
  { sender_id := "ACC99999"
    receiver_id := "ACC00001"
    amount := 250
    hour := 14 }

/-- Witness for C9: the concrete event against the empty store. -/
theorem claim_C9_unknown_sender_witness :
    c9Event.sender_id ∉ emptyGraphState.accounts ∧
    process_transaction emptyGraphState c9Event =
      (emptyGraphState, Except.error ApiError.accountNotFound) := by
  refine ⟨by simp [emptyGraphState], ?_⟩
  exact claim_C9_unknown_sender emptyGraphState c9Event (by simp [emptyGraphState])

/-! ### Bounds for the drift components -/

theorem compute_amount_drift_bounds (fp : Fingerprint) (amount : ℚ) :
    0 ≤ compute_amount_drift fp amount ∧ compute_amount_drift fp amount ≤ 1 := by
  unfold compute_amount_drift
  have hstd : (0:ℚ) < (if fp.amount_std < 1 then 1 else fp.amount_std) := by
    split_ifs with h
    · norm_num
    · linarith [not_lt.mp h]
  have hz : 0 ≤ |amount - fp.amount_mean| / (if fp.amount_std < 1 then 1 else fp.amount_std) :=
    div_nonneg (abs_nonneg _) hstd.le
  constructor
  · exact round4_nonneg (le_min (by positivity) (by norm_num))
  · exact round4_le_one (min_le_right _ _)

theorem compute_velocity_drift_bounds (fp : Fingerprint) (rc : ℤ) :
    0 ≤ compute_velocity_drift fp rc ∧ compute_velocity_drift fp rc ≤ 1 := by
  unfold compute_velocity_drift
  split_ifs with h1 h2
  · norm_num
  · have h3 : (3:ℚ) ≤ (rc:ℚ) := by exact_mod_cast (by omega : (3:ℤ) ≤ rc)
    constructor
    · exact round4_nonneg (le_min (by linarith) (by norm_num))
    · exact round4_le_one (min_le_right _ _)
  · constructor
    · exact round4_nonneg (le_max_right _ _)
    · exact round4_le_one (max_le (min_le_right _ _) (by norm_num))

theorem compute_time_drift_bounds (fp : Fingerprint) (hour : ℤ)
    (hfp : ∀ q ∈ fp.hour_vector, 0 ≤ q ∧ q ≤ 1)
    (h0 : 0 ≤ hour) (h24 : hour < 24) :
    ∃ t, compute_time_drift fp hour = some t ∧ 0 ≤ t ∧ t ≤ 1 := by
  unfold compute_time_drift
  by_cases hl : fp.hour_vector.length = 24
  · rw [if_neg (by simp [hl])]
    have hlt : hour.toNat < fp.hour_vector.length := by omega
    have hcond : 0 ≤ hour ∧ hour < (fp.hour_vector.length : ℤ) := ⟨h0, by omega⟩
    have hidx : pyIndex fp.hour_vector hour = some (fp.hour_vector.get ⟨hour.toNat, hlt⟩) := by
      unfold pyIndex
      rw [if_pos hcond]
      exact List.get?_eq_get hlt
    have hmem : fp.hour_vector.get ⟨hour.toNat, hlt⟩ ∈ fp.hour_vector :=
      List.get_mem fp.hour_vector hour.toNat hlt
    obtain ⟨hq0, hq1⟩ := hfp _ hmem
    refine ⟨round4 (1 - fp.hour_vector.get ⟨hour.toNat, hlt⟩), ?_, ?_, ?_⟩
    · rw [hidx]; rfl
    · exact round4_nonneg (by linarith)
    · exact round4_le_one (by linarith)
  · rw [if_pos (by simp [hl])]
    exact ⟨1/2, rfl, by norm_num, by norm_num⟩

/-! ### Claim C8 -/

/-- A concrete well-formed fingerprint with a full 24-bucket hour
vector, used for the C8 counterexample and witness. -/
def c8Fingerprint : Fingerprint :=
  { hour_vector := List.replicate 24 (1/24)
    amount_mean := 50
    amount_std := 5
    daily_velocity := 1/10
    counterparty_weekly := 1
    device_count := 1 }

/-- Counterexample to C8 as stated: the claim quantifies over arbitrary
hour inputs, but with a stored 24-bucket fingerprint the hour 24 makes
`hour_vector[new_transaction_hour]` raise an uncaught `IndexError`
(modelled by `none`), so the DriftScorer does not return a value in
[0,1] for arbitrary hour. -/
theorem claim_C8_counterexample :
    c8Fingerprint.hour_vector.length = 24 ∧
    compute_drift_score (some c8Fingerprint)
      { amount := 100, hour := 24, recent_count := 1 } = none := by
  constructor
  · decide
  · rfl

/-- C8 (amended): for a missing fingerprint, or a stored fingerprint
whose hour-vector entries lie in [0,1], and for every amount and
recentCount — including pathological values (the standard deviation may
be zero or negative, the amount and the count arbitrary) — and every
hour in the valid domain [0,23], the DriftScorer returns a value and
that value lies in [0,1]. -/
theorem claim_C8_drift_bounded (fingerprint : Option Fingerprint) (ev : DriftEvent)
    (hfp : ∀ fp ∈ fingerprint, ∀ q ∈ fp.hour_vector, 0 ≤ q ∧ q ≤ 1)
    (h0 : 0 ≤ ev.hour) (h24 : ev.hour < 24) :
    ∃ s, compute_drift_score fingerprint ev = some s ∧ 0 ≤ s ∧ s ≤ 1 := by
  cases fingerprint with
  | none => exact ⟨1/2, rfl, by norm_num, by norm_num⟩
  | some fp =>
    obtain ⟨t, ht, ht0, ht1⟩ :=
      compute_time_drift_bounds fp ev.hour (hfp fp (by simp)) h0 h24
    obtain ⟨ha0, ha1⟩ := compute_amount_drift_bounds fp ev.amount
    obtain ⟨hv0, hv1⟩ := compute_velocity_drift_bounds fp ev.recent_count
    refine ⟨round4 (3/10 * t + 2/5 * compute_amount_drift fp ev.amount +
      3/10 * compute_velocity_drift fp ev.recent_count), ?_,
      round4_nonneg (by linarith), round4_le_one (by linarith)⟩
    simp only [compute_drift_score, ht, Option.map_some']

/-- Witness for C8 (amended) at a zero-variance-like event. -/
theorem claim_C8_drift_bounded_witness :
    (0:ℤ) ≤ 3 ∧ (3:ℤ) < 24 ∧
    ∃ s, compute_drift_score (some c8Fingerprint)
      { amount := -1000, hour := 3, recent_count := -5 } = some s ∧ 0 ≤ s ∧ s ≤ 1 := by
  refine ⟨by norm_num, by norm_num, ?_⟩
  apply claim_C8_drift_bounded (some c8Fingerprint)
    { amount := -1000, hour := 3, recent_count := -5 }
  · intro fp hm q hq
    obtain rfl : c8Fingerprint = fp := by simpa using hm
    have hq' : q = 1/24 := by simpa [c8Fingerprint] using hq
    rw [hq']
    norm_num
  · norm_num
  · norm_num

/-! ### Claim C3 -/

theorem round4_zero : round4 0 = 0 := by norm_num [round4]

theorem if_std_eq_max (s : ℚ) : (if s < 1 then 1 else s) = max s 1 := by
  split_ifs with h
  · exact (max_eq_right h.le).symm
  · exact (max_eq_left (not_lt.mp h)).symm

/-- C3 (amended): for a well-formed stored fingerprint (24-bucket hour
vector) and an event with hour in [0,23], the returned drift score is
`round4(0.3 * time + 0.4 * amount + 0.3 * velocity)` where each of the
three component drifts is itself ROUNDED TO 4 DECIMALS before being
combined — time = 1 - hour_vector[hour],
amount = min(|amount - mean| / max(std, 1) / 5, 1), velocity the
piecewise rule with threshold 0.5. -/
theorem claim_C3_drift_formula (fp : Fingerprint) (ev : DriftEvent)
    (hl : fp.hour_vector.length = 24) (h0 : 0 ≤ ev.hour) (h24 : ev.hour < 24) :
    compute_drift_score (some fp) ev = some (round4 (
      3/10 * round4 (1 - fp.hour_vector.getD ev.hour.toNat 0) +
      2/5 * round4 (min (|ev.amount - fp.amount_mean| / max fp.amount_std 1 / 5) 1) +
      3/10 * round4 (if fp.daily_velocity < 1/2 then
          (if ev.recent_count ≤ 2 then 0 else min (((ev.recent_count : ℚ) - 2) / 8) 1)
        else max (min (((ev.recent_count : ℚ) / fp.daily_velocity - 1) / 4) 1) 0))) := by
  have hlt : ev.hour.toNat < fp.hour_vector.length := by omega
  have htime : compute_time_drift fp ev.hour =
      some (round4 (1 - fp.hour_vector.getD ev.hour.toNat 0)) := by
    unfold compute_time_drift
    rw [if_neg (by simp [hl])]
    have hcond : 0 ≤ ev.hour ∧ ev.hour < (fp.hour_vector.length : ℤ) := ⟨h0, by omega⟩
    unfold pyIndex
    rw [if_pos hcond, List.get?_eq_get hlt, Option.map_some']
    rw [List.getD_eq_get fp.hour_vector 0 hlt]
  have hamount : compute_amount_drift fp ev.amount =
      round4 (min (|ev.amount - fp.amount_mean| / max fp.amount_std 1 / 5) 1) := by
    unfold compute_amount_drift
    rw [if_std_eq_max]
  have hvel : compute_velocity_drift fp ev.recent_count =
      round4 (if fp.daily_velocity < 1/2 then
          (if ev.recent_count ≤ 2 then 0 else min (((ev.recent_count : ℚ) - 2) / 8) 1)
        else max (min (((ev.recent_count : ℚ) / fp.daily_velocity - 1) / 4) 1) 0) := by
    unfold compute_velocity_drift
    split_ifs with h1 h2
    · exact round4_zero.symm
    · rfl
    · rfl
  simp only [compute_drift_score, htime, Option.map_some']
  rw [hamount, hvel]

/-- A fingerprint realizable by the fingerprint builder (44
transactions: 25 at hour 0, 19 at hour 1; amount mean 50.0, std 1.0,
daily velocity 0.4889), on which the component-wise rounding differs
from the single final rounding the claim states. -/
def c3Fingerprint : Fingerprint :=
  { hour_vector := 5682/10000 :: 4318/10000 :: List.replicate 22 0
    amount_mean := 50
    amount_std := 1
    daily_velocity := 4889/10000
    counterparty_weekly := 1
    device_count := 1 }

/-- The event exhibiting the discrepancy: amount 50.000245, hour 0,
1 recent transaction. -/
def c3Event : DriftEvent :=
  { amount := 50 + 49/200000
    hour := 0
    recent_count := 1 }

/-- Counterexample to C3 as stated: the code rounds each component
drift to 4 decimals before combining, the claim formula does not.  At
this input the code returns 0.1295 while the claim formula yields
0.1296. -/
theorem claim_C3_counterexample :
    compute_drift_score (some c3Fingerprint) c3Event = some (1295/10000) ∧
    drift_score_claim c3Fingerprint c3Event = 1296/10000 ∧
    (1295/10000 : ℚ) ≠ 1296/10000 := by
  have habs : |(49:ℚ)/200000| = 49/200000 := abs_of_nonneg (by norm_num)
  refine ⟨?_, ?_, by norm_num⟩
  · norm_num [compute_drift_score, compute_time_drift, compute_amount_drift,
      compute_velocity_drift, pyIndex, c3Fingerprint, c3Event, round4, round_eq,
      habs, min_def]
  · norm_num [drift_score_claim, c3Fingerprint, c3Event, round4, round_eq,
      habs, min_def]

/-- Witness for C3 (amended) at the same concrete input. -/
theorem claim_C3_drift_formula_witness :
    c3Fingerprint.hour_vector.length = 24 ∧ (0:ℤ) ≤ c3Event.hour ∧ c3Event.hour < 24 ∧
    compute_drift_score (some c3Fingerprint) c3Event = some (round4 (
      3/10 * round4 (1 - c3Fingerprint.hour_vector.getD c3Event.hour.toNat 0) +
      2/5 * round4 (min (|c3Event.amount - c3Fingerprint.amount_mean| /
        max c3Fingerprint.amount_std 1 / 5) 1) +
      3/10 * round4 (if c3Fingerprint.daily_velocity < 1/2 then
          (if c3Event.recent_count ≤ 2 then 0
           else min (((c3Event.recent_count : ℚ) - 2) / 8) 1)
        else max (min (((c3Event.recent_count : ℚ) /
          c3Fingerprint.daily_velocity - 1) / 4) 1) 0))) := by
  refine ⟨by decide, by decide, by decide, ?_⟩
  exact claim_C3_drift_formula c3Fingerprint c3Event (by decide) (by decide) (by decide)

/-! ### Claim C4 -/

theorem list_map_add_sum {α : Type} (l : List α) (f g : α → ℚ) :
    (l.map (fun x => f x + g x)).sum = (l.map f).sum + (l.map g).sum := by
  induction l with
  | nil => simp
  | cons a l ih => simp only [List.map_cons, List.sum_cons, ih]; ring

theorem list_map_div_sum {α : Type} (l : List α) (g : α → ℚ) (c : ℚ) :
    (l.map (fun x => g x / c)).sum = (l.map g).sum / c := by
  induction l with
  | nil => simp
  | cons a l ih => simp only [List.map_cons, List.sum_cons, ih]; ring

theorem list_abs_sum_le {α : Type} (l : List α) (f : α → ℚ) (c : ℚ)
    (h : ∀ x ∈ l, |f x| ≤ c) :
    |(l.map f).sum| ≤ l.length * c := by
  induction l with
  | nil => simp
  | cons a l ih =>
    simp only [List.map_cons, List.sum_cons, List.length_cons]
    have h1 : |f a| ≤ c := h a (by simp)
    have h2 : |(l.map f).sum| ≤ l.length * c := ih (fun x hx => h x (by simp [hx]))
    calc |f a + (l.map f).sum| ≤ |f a| + |(l.map f).sum| := abs_add _ _
      _ ≤ c + l.length * c := add_le_add h1 h2
      _ = (l.length + 1 : ℕ) * c := by push_cast; ring

theorem sum_ite_range_zero (n m : ℕ) (h : n ≤ m) :
    ((List.range n).map (fun x => if m = x then (1:ℚ) else 0)).sum = 0 := by
  induction n with
  | zero => simp
  | succ k ih =>
    rw [List.range_succ, List.map_append, List.sum_append, ih (by omega)]
    simp [Nat.ne_of_gt (by omega : k < m)]

theorem sum_ite_range_one (n m : ℕ) (h : m < n) :
    ((List.range n).map (fun x => if m = x then (1:ℚ) else 0)).sum = 1 := by
  induction n with
  | zero => omega
  | succ k ih =>
    rw [List.range_succ, List.map_append, List.sum_append]
    by_cases hm : m = k
    · rw [hm, sum_ite_range_zero k k le_rfl]
      simp
    · rw [ih (by omega)]
      simp [hm]

theorem hour_count_sum (txs : List Txn) :
    ((List.range 24).map
      (fun h => (txs.countP (fun t => t.hour.val = h) : ℚ))).sum = txs.length := by
  induction txs with
  | nil => simp
  | cons t l ih =>
    have e : ((List.range 24).map
        (fun h => ((t :: l).countP (fun t' => t'.hour.val = h) : ℚ))) =
        ((List.range 24).map (fun h =>
          (l.countP (fun t' => t'.hour.val = h) : ℚ) +
          (if t.hour.val = h then (1:ℚ) else 0))) := by
      apply List.map_congr_left
      intro h _
      rw [List.countP_cons]
      by_cases hh : t.hour.val = h
      · simp [hh]
      · simp [hh]
    rw [e, list_map_add_sum, ih, sum_ite_range_one 24 t.hour.val t.hour.isLt]
    simp only [List.length_cons]
    push_cast
    ring

theorem hour_vector_sum_near_one (txs : List Txn) (h3 : 3 ≤ txs.length) :
    |(hour_vector_of txs).sum - 1| ≤ 3/2500 := by
  have hn : (txs.length : ℚ) ≠ 0 := by
    have : (0:ℚ) < txs.length := by exact_mod_cast (by omega : 0 < txs.length)
    exact this.ne'
  set f : ℕ → ℚ := fun h => (txs.countP (fun t => t.hour.val = h) : ℚ) / txs.length with hf
  have hsum1 : ((List.range 24).map f).sum = 1 := by
    rw [hf]
    rw [list_map_div_sum (List.range 24)
      (fun h => (txs.countP (fun t => t.hour.val = h) : ℚ)) (txs.length : ℚ)]
    rw [hour_count_sum]
    exact div_self hn
  have hdecomp : (hour_vector_of txs).sum - 1 =
      ((List.range 24).map (fun h => round4 (f h) - f h)).sum := by
    have e : hour_vector_of txs =
        (List.range 24).map (fun h => (round4 (f h) - f h) + f h) := by
      unfold hour_vector_of
      apply List.map_congr_left
      intro h _
      rw [hf]
      ring
    rw [e, list_map_add_sum, hsum1]
    ring
  rw [hdecomp]
  have hb := list_abs_sum_le (List.range 24) (fun h => round4 (f h) - f h) (1/20000)
    (fun x _ => round4_abs_sub_le (f x))
  refine hb.trans ?_
  simp only [List.length_range]
  norm_num

/-- C4: fingerprint building on an account with fewer than 3
transactions in the lookback window returns InsufficientHistory
(`none`), writes nothing, and leaves any existing fingerprint
untouched; with at least 3 transactions it returns a fingerprint whose
24-bucket hour vector sums to 1 within 0.0012 (the accumulated 4-decimal
rounding tolerance). -/
theorem claim_C4_fingerprint (sqrtQ : ℚ → ℚ) (store : String → Option Fingerprint)
    (account_id : String) (txs : List Txn) (cw : ℚ) (dc : ℕ) :
    (txs.length < 3 →
      compute_fingerprint sqrtQ txs cw dc = none ∧
      fingerprint_pass sqrtQ store account_id txs cw dc = store) ∧
    (3 ≤ txs.length →
      ∃ fp, compute_fingerprint sqrtQ txs cw dc = some fp ∧
        fp.hour_vector.length = 24 ∧ |fp.hour_vector.sum - 1| ≤ 3/2500) := by
  constructor
  · intro h
    have e : compute_fingerprint sqrtQ txs cw dc = none := by
      rw [compute_fingerprint, if_pos h]
    refine ⟨e, ?_⟩
    simp only [fingerprint_pass, e]
  · intro h
    rw [compute_fingerprint, if_neg (not_lt.mpr h)]
    refine ⟨_, rfl, ?_, hour_vector_sum_near_one txs h⟩
    simp [hour_vector_of]

/-- Concrete transaction lists for the C4 witness. -/
def c4TxnsTwo : List Txn :=
  [{ amount := 100, hour := 9 }, { amount := 120, hour := 17 }]

/-- Three transactions at three distinct hours: the rounded hour vector
sums to 0.9999. -/
def c4TxnsThree : List Txn :=
  [{ amount := 100, hour := 9 }, { amount := 120, hour := 17 },
   { amount := 80, hour := 22 }]

/-- Witness for C4: exactly 2 transactions are skipped and write
nothing; exactly 3 produce a 24-bucket hour vector summing to 1 within
tolerance. -/
theorem claim_C4_fingerprint_witness :
    (c4TxnsTwo.length < 3 ∧
      compute_fingerprint (fun _ => 0) c4TxnsTwo 0 0 = none ∧
      fingerprint_pass (fun _ => 0) (fun _ => none) "ACC1" c4TxnsTwo 0 0 =
        (fun _ => none)) ∧
    (3 ≤ c4TxnsThree.length ∧
      ∃ fp, compute_fingerprint (fun _ => 0) c4TxnsThree 0 0 = some fp ∧
        fp.hour_vector.length = 24 ∧ |fp.hour_vector.sum - 1| ≤ 3/2500) := by
  constructor
  · refine ⟨by decide, ?_⟩
    exact (claim_C4_fingerprint (fun _ => 0) (fun _ => none) "ACC1" c4TxnsTwo 0 0).1
      (by decide)
  · refine ⟨by decide, ?_⟩
    exact (claim_C4_fingerprint (fun _ => 0) (fun _ => none) "ACC1" c4TxnsThree 0 0).2
      (by decide)

/-! ### Claims C6 and C7 -/

/-- In the no-signal regime (zero decay, zero signal probability, a
nonnegative random stream, baseline drift below the threshold) the
per-step loop emits, from any start step, previous risk and counter, a
run of identical records carrying `round4 prev` and signal false, and
advances the draw counter by one per step. -/
theorem sim_steps_const (u : ℕ → ℚ) (p : SimParams) (acc : EnrichedAccount)
    (hd : p.decay_rate = 0) (hs : p.signal_probability = 0)
    (hu : ∀ n, 0 ≤ u n) (hb : acc.base_drift < p.drift_threshold) :
    ∀ (n t : ℕ) (prev : ℚ) (k : ℕ),
      sim_steps u p acc n t prev k =
        ((List.range n).map (fun i =>
          { account_id := acc.account_id
            step := t + i
            risk_score := round4 prev
            zone := classify_zone (round4 prev)
            drift_score := acc.base_drift
            signal := false }), k + n) := by
  intro n
  induction n with
  | zero =>
    intro t prev k
    simp [sim_steps]
  | succ m ih =>
    intro t prev k
    have hstep : sim_step u p acc prev k = (prev, false, k + 1) := by
      rw [sim_step, if_neg (not_le.mpr hb), hs, if_neg (not_lt.mpr (hu k)), hd]
      norm_num
    rw [sim_steps, hstep]
    simp only []
    rw [ih (t + 1) (round4 prev) (k + 1)]
    rw [round4_idem]
    refine Prod.ext ?_ (by omega)
    simp only []
    rw [List.range_succ_eq_map, List.map_cons, List.map_map]
    congr 1
    apply List.map_congr_left
    intro i _
    simp only [Function.comp_apply]
    congr 1
    omega

/-- The account loop in the no-signal regime: every account produces
its step-0 record (signal true, zone of the unrounded risk0) followed
by `steps` identical records at `round4 risk0`. -/
theorem sim_accounts_const (u : ℕ → ℚ) (p : SimParams)
    (hd : p.decay_rate = 0) (hs : p.signal_probability = 0) (hu : ∀ n, 0 ≤ u n) :
    ∀ (accs : List EnrichedAccount) (k : ℕ),
      (∀ a ∈ accs, a.base_drift < p.drift_threshold) →
      sim_accounts u p accs k =
        accs.flatMap (fun a =>
          { account_id := a.account_id, step := 0, risk_score := round4 a.risk0,
            zone := classify_zone a.risk0, drift_score := a.base_drift,
            signal := true } ::
          (List.range p.steps).map (fun i =>
            { account_id := a.account_id, step := 1 + i,
              risk_score := round4 a.risk0,
              zone := classify_zone (round4 a.risk0),
              drift_score := a.base_drift, signal := false })) := by
  intro accs
  induction accs with
  | nil =>
    intro k _
    simp [sim_accounts]
  | cons a rest ih =>
    intro k hb
    rw [sim_accounts]
    rw [sim_steps_const u p a hd hs hu (hb a (by simp)) p.steps 1 a.risk0 k]
    simp only []
    rw [ih _ (fun x hx => hb x (by simp [hx]))]
    simp

/-- C6 (amended): with an explicitly supplied account set, decayRate 0,
signalProbability 0, a nonnegative random stream, and every baseline
drift strictly below driftThreshold, the simulation produces for each
account a constant risk sequence equal to `round4` of that account's
risk0 (hence equal to risk0 itself whenever risk0 carries at most 4
decimals, e.g. whenever it was computed by the contamination scorer) at
every step 0 through steps, with the step-0 record carrying
signal = true and all later records signal = false. -/
theorem claim_C6_no_signal_constant (u : ℕ → ℚ) (p : SimParams)
    (storeHop : String → Option ℤ) (accounts : List SimAccount)
    (hd : p.decay_rate = 0) (hs : p.signal_probability = 0)
    (hu : ∀ n, 0 ≤ u n)
    (hb : ∀ acc ∈ accounts,
      (enrich_account storeHop acc).base_drift < p.drift_threshold) :
    simulate_temporal_risk u p storeHop accounts =
      accounts.flatMap (fun acc =>
        { account_id := (enrich_account storeHop acc).account_id, step := 0,
          risk_score := round4 (enrich_account storeHop acc).risk0,
          zone := classify_zone (enrich_account storeHop acc).risk0,
          drift_score := (enrich_account storeHop acc).base_drift,
          signal := true } ::
        (List.range p.steps).map (fun i =>
          { account_id := (enrich_account storeHop acc).account_id, step := 1 + i,
            risk_score := round4 (enrich_account storeHop acc).risk0,
            zone := classify_zone (round4 (enrich_account storeHop acc).risk0),
            drift_score := (enrich_account storeHop acc).base_drift,
            signal := false })) := by
  unfold simulate_temporal_risk
  rw [sim_accounts_const u p hd hs hu (accounts.map (enrich_account storeHop)) 0
    (fun e he => by
      obtain ⟨a, ha, rfl⟩ := List.mem_map.mp he
      exact hb a ha)]
  exact List.flatMap_map _ _ _

/-- The account of the C6 counterexample: explicitly supplied with a
risk0 that is not a 4-decimal value. -/
def c6Account : SimAccount :=
  { account_id := "A1", hop_distance := some 9, base_drift := none,
    drift_score := none, risk0 := some (1/100000) }

/-- Counterexample to C6 as stated: with steps = 1, decayRate 0,
signalProbability 0, threshold 1 and baseline drift 0, the account
supplied with risk0 = 0.00001 produces the record sequence [0.0, 0.0] —
every record carries `round(risk0, 4) = 0.0`, not risk0. -/
theorem claim_C6_counterexample :
    ((simulate_temporal_risk (fun _ => 1/2) ⟨1, 0, 0, 1⟩ (fun _ => none)
      [c6Account]).map (fun r => r.risk_score)) = [0, 0] ∧
    c6Account.risk0 = some (1/100000) ∧ ((1:ℚ)/100000) ≠ 0 := by
  refine ⟨?_, rfl, by norm_num⟩
  norm_num [simulate_temporal_risk, sim_accounts, sim_steps, sim_step,
    enrich_account, c6Account, round4, round_eq, Int.fract]

/-- The account of the C6 witness: risk0 left to be computed by the
contamination scorer. -/
def c6WitnessAccount : SimAccount :=
  { account_id := "A2", hop_distance := some 2, base_drift := some (1/10),
    drift_score := none, risk0 := none }

/-- Witness for C6 (amended) on one concrete account, two steps. -/
theorem claim_C6_no_signal_constant_witness :
    simulate_temporal_risk (fun _ => 1/2) ⟨2, 0, 0, 1⟩ (fun _ => none)
      [c6WitnessAccount] =
      [c6WitnessAccount].flatMap (fun acc =>
        { account_id := (enrich_account (fun _ => none) acc).account_id, step := 0,
          risk_score := round4 (enrich_account (fun _ => none) acc).risk0,
          zone := classify_zone (enrich_account (fun _ => none) acc).risk0,
          drift_score := (enrich_account (fun _ => none) acc).base_drift,
          signal := true } ::
        (List.range 2).map (fun i =>
          { account_id := (enrich_account (fun _ => none) acc).account_id,
            step := 1 + i,
            risk_score := round4 (enrich_account (fun _ => none) acc).risk0,
            zone := classify_zone (round4 (enrich_account (fun _ => none) acc).risk0),
            drift_score := (enrich_account (fun _ => none) acc).base_drift,
            signal := false })) := by
  apply claim_C6_no_signal_constant (fun _ => 1/2) ⟨2, 0, 0, 1⟩ (fun _ => none)
    [c6WitnessAccount] rfl rfl (fun n => by norm_num)
  intro acc hm
  obtain rfl : acc = c6WitnessAccount := by simpa using hm
  norm_num [enrich_account, c6WitnessAccount]

/-- C7: the simulation output is a pure function of the random stream
(which the seed determines), the account set, and the parameters — two
runs with identical streams, accounts and parameters produce identical
output sequences, record for record. -/
theorem claim_C7_determinism (u1 u2 : ℕ → ℚ) (p : SimParams)
    (storeHop : String → Option ℤ) (accounts : List SimAccount)
    (h : ∀ n, u1 n = u2 n) :
    simulate_temporal_risk u1 p storeHop accounts =
      simulate_temporal_risk u2 p storeHop accounts := by
  have e : u1 = u2 := funext h
  rw [e]

/-- Witness for C7 at a concrete stream, parameter set and account. -/
theorem claim_C7_determinism_witness :
    simulate_temporal_risk (fun _ => 1/2) ⟨3, 1/10, 1/5, 3/5⟩ (fun _ => none)
      [{ account_id := "A3", hop_distance := some 1, base_drift := some (9/10),
         drift_score := none, risk0 := none }] =
    simulate_temporal_risk (fun _ => 1/2) ⟨3, 1/10, 1/5, 3/5⟩ (fun _ => none)
      [{ account_id := "A3", hop_distance := some 1, base_drift := some (9/10),
         drift_score := none, risk0 := none }] :=
  claim_C7_determinism _ _ _ _ _ (fun _ => rfl)

end DFCRM
